import Mathlib

/-!
Verification of the candidate-analysis pipeline of the greenstoneResume
backend (FastAPI + MongoDB recruiting tool).

The Python sources are shallowly embedded:
* Python floats are modelled as exact rationals (`ℚ`).
* `round(x, n)` is modelled by round-half-to-even at `n` decimals
  (`roundHalfEven`), matching CPython semantics on exact values.
* Python dicts used as score maps are modelled as insertion-ordered
  association lists (`PyDict`), since the code relies on insertion order
  when iterating `dict.items()`.
* The Gemini LLM client and the `re` regex engine are external effects:
  each call site takes the call outcome as an explicit argument
  (an `Except`/`Option` value), exactly as the surrounding Python code
  consumes it.
* `hash(name) % 100` (CPython string hash, fixed within a process) is
  modelled by an arbitrary but fixed function `pyHash : String → ℤ`
  followed by `Int.emod`, which like Python `%` is nonnegative for a
  positive modulus.
-/

namespace Greenstone

/-! ## Python-style rounding and clamping -/

/-- Round-half-to-even to the nearest integer, modelling CPython `round` on
exact values: fractional part below one half rounds down, above one half
rounds up, exactly one half rounds to the even neighbour. -/
def roundHalfEven (q : ℚ) : ℤ :=
  if q - ⌊q⌋ < 1/2 then ⌊q⌋
  else if 1/2 < q - ⌊q⌋ then ⌊q⌋ + 1
  else if 2 ∣ ⌊q⌋ then ⌊q⌋ else ⌊q⌋ + 1

/-- Python `round(x, 1)`. -/
def round1 (q : ℚ) : ℚ := (roundHalfEven (10 * q) : ℚ) / 10

/-- Python `round(x, 2)`. -/
def round2 (q : ℚ) : ℚ := (roundHalfEven (100 * q) : ℚ) / 100

/-- Python `max(0, min(10, x))`, the clamp used for every score. -/
def clamp10 (q : ℚ) : ℚ := max 0 (min 10 q)

/-! ## Python-style string helpers -/

/-- Python `s.strip()`: drop leading and trailing whitespace. -/
def pyStrip (s : String) : String :=
  String.mk (((s.toList.dropWhile Char.isWhitespace).reverse.dropWhile
    Char.isWhitespace).reverse)

/-- Python `s.split()` with no separator: split on whitespace runs,
dropping empty pieces. -/
def pySplitWs (s : String) : List String :=
  (s.split Char.isWhitespace).filter (fun w => w ≠ "")

/-- `" ".join(name.split())`: collapse internal whitespace runs to single
spaces (the "normalized" name used by the criterion matcher). -/
def normSpace (s : String) : String :=
  String.intercalate " " (pySplitWs s)

/-- Python `word.capitalize()`: first character upper-cased, the rest
lower-cased. -/
def pyCapitalize (w : String) : String :=
  match w.toList with
  | [] => ""
  | c :: cs => String.mk (c.toUpper :: cs.map Char.toLower)

/-- `' '.join(word.capitalize() for word in name.split())`, the Title Case
normalisation applied to extracted names. -/
def pyTitleWords (s : String) : String :=
  String.intercalate " " ((pySplitWs s).map pyCapitalize)

/-- Does the character list `pre` start the character list `l`? -/
def charsStartWith : List Char → List Char → Bool
  | [], _ => true
  | _ :: _, [] => false
  | a :: as, b :: bs => a == b && charsStartWith as bs

/-- Does `needle` occur as a contiguous run inside `hay`? -/
def charsOccur (needle : List Char) : List Char → Bool
  | [] => needle.isEmpty
  | c :: rest => charsStartWith needle (c :: rest) || charsOccur needle rest

/-- Python `needle in hay` on strings (substring containment). -/
def pyIn (needle hay : String) : Bool :=
  charsOccur needle.toList hay.toList

/-! ## Insertion-ordered dictionary (Python `dict`) -/

/-- A Python `dict[str, float]`: association list in insertion order;
re-assigning an existing key updates it in place. -/
abbrev PyDict := List (String × ℚ)

/-- `d[k] = v`. -/
def dictInsert (d : PyDict) (k : String) (v : ℚ) : PyDict :=
  if d.any (fun p => p.1 == k) then
    d.map (fun p => if p.1 == k then (k, v) else p)
  else d ++ [(k, v)]

/-- `k in d`. -/
def dictHas (d : PyDict) (k : String) : Bool :=
  d.any (fun p => p.1 == k)

/-- `d[k]` as an option. -/
def dictGet? (d : PyDict) (k : String) : Option ℚ :=
  (d.find? (fun p => p.1 == k)).map Prod.snd

/-! ## Data model (backend/models.py)

`models.py` declares `CandidateStatus` with members uploaded / analyzing /
analyzed / shortlisted / rejected, while the route code also references
`CandidateStatus.new` and `CandidateStatus.reviewed`; the embedding carries
the union of the status names the routes use, following the spec's
canonicalisation. -/

inductive CandidateStatus where
  | uploaded
  | new
  | analyzing
  | analyzed
  | reviewed
  | shortlisted
  | rejected
  deriving DecidableEq, Repr

/-- One entry of `job.evaluation_criteria`. -/
structure Criterion where
  name : String
  weight : ℚ
  deriving DecidableEq, Repr

/-- One entry of the candidate's persisted `criterion_scores` list. -/
structure CriterionScore where
  criterion_name : String
  score : ℚ
  weight : ℚ
  deriving DecidableEq, Repr

/-! ## Criterion reconciler (candidates.py, process_candidate_analysis)

The reconciler is inline in `process_candidate_analysis`
(candidates.py lines 1236–1311).  It first builds `llm_score_map` from the
scorer's `criterion_scores`, storing each score under the stripped name,
its lower-cased form, its whitespace-normalised form and the lower-cased
normalised form; then, per job criterion, it tries exact /
case-insensitive / normalised / normalised-case-insensitive lookups, then
substring containment in either direction over the map in insertion
order, and finally synthesises a deterministic score.

The entries reaching the map already carry numeric scores (the scorer
always returns floats), so the `float(score)` guard never fires and is
not modelled. -/

/-- Insert one scorer entry into `llm_score_map` under its four key
variants (candidates.py lines 1238–1250); blank names are skipped. -/
def insertScoreVariants (d : PyDict) (rawName : String) (v : ℚ) : PyDict :=
  let name := pyStrip rawName
  if name = "" then d
  else
    let d1 := dictInsert d name v
    let d2 := dictInsert d1 name.toLower v
    let normalized := normSpace name
    let d3 := dictInsert d2 normalized v
    dictInsert d3 normalized.toLower v

/-- Build `llm_score_map` from the scorer's criterion list. -/
def buildLlmScoreMap (entries : List (String × ℚ)) : PyDict :=
  entries.foldl (fun d e => insertScoreVariants d e.1 e.2) []

/-- Matching cascade for one job criterion (candidates.py lines
1252–1284): exact, case-insensitive, whitespace-normalised (both cases),
then substring containment either direction over the map in order. -/
def lookupCriterionScore (d : PyDict) (c : Criterion) : Option ℚ :=
  if dictHas d c.name then dictGet? d c.name
  else if dictHas d c.name.toLower then dictGet? d c.name.toLower
  else
    let normalized := normSpace c.name
    if dictHas d normalized then dictGet? d normalized
    else if dictHas d normalized.toLower then dictGet? d normalized.toLower
    else
      (d.find? (fun p =>
        pyIn c.name.toLower p.1.toLower || pyIn p.1.toLower c.name.toLower)).map
        Prod.snd

/-- Synthesised score for an unmatched criterion (candidates.py lines
1286–1300): `base = scoring_result.get("overall_score", 7.0)`,
`variation = ((hash(name) % 100)/100 - 0.5) * 2`, then
`max(0, min(10, round(base + variation * (1 - weight/100), 1)))`. -/
def synthesizeScore (pyHash : String → ℤ) (overallOpt : Option ℚ) (c : Criterion) : ℚ :=
  let base := overallOpt.getD 7
  let weight_factor := c.weight / 100
  let name_hash := (pyHash c.name).emod 100
  let variation := ((name_hash : ℚ) / 100 - 1/2) * 2
  clamp10 (round1 (base + variation * (1 - weight_factor)))

/-- The reconciler: one `CriterionScore` per job criterion, in job order,
scored by the matching cascade with synthesis as last resort
(candidates.py lines 1252–1307). -/
def reconcileCriterionScores (pyHash : String → ℤ) (overallOpt : Option ℚ)
    (llmScores : List (String × ℚ)) (criteria : List Criterion) : List CriterionScore :=
  let d := buildLlmScoreMap llmScores
  criteria.map (fun c =>
    let score :=
      match lookupCriterionScore d c with
      | some s => s
      | none => synthesizeScore pyHash overallOpt c
    { criterion_name := c.name, score := score, weight := c.weight })

/-! ## Resume scorer (utils/ai_scoring.py, score_resume_with_llm)

The scorer builds a prompt, performs one Gemini call, then defensively
parses the response.  Prompt construction and the raw string surgery
(code-fence stripping, JSON-span regex, brace trimming) happen before any
numeric processing; the embedding starts from the outcome of the parse
stage, which the Python code consumes in exactly three shapes:

* `apiError msg` — any exception inside the `try` (the Gemini call, the
  response accessors, or a failing `float(...)` conversion); caught by the
  outer `except Exception` (lines 341–364).
* `parsed overall cs just` — `json.loads` succeeded; `overall` / `just`
  are the optional `overall_score` / `justification` entries and `cs`
  the optional `criterion_scores` entry (absent-or-non-list is `none`),
  whose elements are well-formed name/score dicts or malformed entries.
* `parseFailed overallRe csRe justRe` — `json.DecodeError`; the fields
  carry the regex-rescue results of lines 264–296: the matched
  `overall_score` (its pattern `(\d+\.?\d*)` only matches nonnegative
  literals), the matched name/score tuples, and the matched
  justification. -/

/-- One element of a parsed `criterion_scores` list: a dict with both
`criterion_name` and `score` keys, or anything else (filtered out by the
validation loop at lines 251–258). -/
inductive RawCS where
  | good (criterion_name : String) (score : ℚ)
  | malformed
  deriving DecidableEq, Repr

/-- Outcome of the Gemini call plus parse stage, as consumed by the
numeric tail of `score_resume_with_llm`. -/
inductive LlmScoringOutcome where
  | apiError (msg : String)
  | parsed (overall : Option ℚ) (cs : Option (List RawCS)) (just : Option String)
  | parseFailed (overallRe : Option ℚ) (csRe : List (String × ℚ)) (justRe : Option String)
  deriving DecidableEq, Repr

/-- What `score_resume_with_llm` returns. -/
structure ScoringResult where
  overall_score : ℚ
  criterion_scores : List (String × ℚ)
  justification : String
  deriving DecidableEq, Repr

/-- Validation of parsed criterion scores (ai_scoring.py lines 250–258):
keep well-formed entries, strip the name, clamp the score to [0, 10]. -/
def validateCriterionScores (cs : Option (List RawCS)) : List (String × ℚ) :=
  match cs with
  | none => []
  | some l =>
      l.filterMap (fun r =>
        match r with
        | .good n s => some (pyStrip n, clamp10 s)
        | .malformed => none)

def authJust : String :=
  "LLM evaluation failed: Invalid or missing Gemini API key. Please check your .env file."

def rateJust : String :=
  "LLM evaluation failed: API rate limit exceeded. Please try again later."

def timeoutJust : String :=
  "LLM evaluation failed: Request timeout. Please try again."

/-- Error-message classification of the outer exception handler
(ai_scoring.py lines 349–357). -/
def errorJustification (msg : String) : String :=
  if pyIn "API key" msg || pyIn "authentication" msg.toLower then authJust
  else if pyIn "rate limit" msg.toLower || pyIn "quota" msg.toLower then rateJust
  else if pyIn "timeout" msg.toLower then timeoutJust
  else "LLM evaluation unavailable: " ++ msg ++ ". Please try again."

/-- Fallback criterion scores generated by the scorer itself when the
parsed list is empty (ai_scoring.py lines 315–325):
`variation = ((hash(name) % 100)/100 - 0.5) * 1.5`,
`score = max(0, min(10, llm_score + variation))`, rounded to one
decimal. -/
def fallbackCriterionScores (pyHash : String → ℤ) (llmScore : ℚ)
    (criteria : List Criterion) : List (String × ℚ) :=
  criteria.map (fun c =>
    let name_hash := (pyHash c.name).emod 100
    let variation := ((name_hash : ℚ) / 100 - 1/2) * (3/2)
    let score := clamp10 (llmScore + variation)
    (c.name, round1 score))

def defaultScorerJust : String :=
  "Score based on resume analysis using weighted average of criterion scores."

def rescueDefaultJust : String := "Score based on resume analysis."

/-- The numeric tail of `score_resume_with_llm` (ai_scoring.py lines
239–364): assemble `scoring_result` from the parse outcome, clamp the
overall score (defaults 7.0 on the strict path, 5.0 on the rescue path),
generate fallback criterion scores when the list is empty, and return
`max(0, min(10, round(llm_score, 2)))` as the final resume score.  The
outer exception handler returns a zero score with an empty list. -/
def scoreResumeResult (pyHash : String → ℤ) (criteria : List Criterion)
    (out : LlmScoringOutcome) : ScoringResult :=
  match out with
  | .apiError msg =>
      { overall_score := 0, criterion_scores := [],
        justification := errorJustification msg }
  | .parsed overall cs just =>
      let parsedCs := validateCriterionScores cs
      let llmScore := clamp10 (overall.getD 7)
      let finalCs :=
        if parsedCs.isEmpty then fallbackCriterionScores pyHash llmScore criteria
        else parsedCs
      { overall_score := clamp10 (round2 llmScore),
        criterion_scores := finalCs,
        justification := just.getD defaultScorerJust }
  | .parseFailed overallRe csRe justRe =>
      let llmScore := clamp10 (overallRe.getD 5)
      let finalCs :=
        if csRe.isEmpty then fallbackCriterionScores pyHash llmScore criteria
        else csRe
      { overall_score := clamp10 (round2 llmScore),
        criterion_scores := finalCs,
        justification := justRe.getD rescueDefaultJust }

/-! ## Score breakdown and assessment merging -/

/-- The persisted `score_breakdown` dict.  Every key is optional because
the routes build it incrementally; `workstyle_score` exists on the
pydantic model but is never written by the flows under study and is
omitted. -/
structure ScoreBreakdown where
  resume_score : Option ℚ
  ccat_score : Option ℚ
  personality_score : Option ℚ
  overall_score : Option ℚ
  deriving DecidableEq, Repr

def emptyBreakdown : ScoreBreakdown :=
  { resume_score := none, ccat_score := none,
    personality_score := none, overall_score := none }

/-- `PersonalityTraits` (models.py): stored trait dicts always carry all
five keys. -/
structure PersonalityTraits where
  openness : ℚ
  conscientiousness : ℚ
  extraversion : ℚ
  agreeableness : ℚ
  neuroticism : ℚ
  deriving DecidableEq, Repr

/-- The personality average with inverted neuroticism, as computed at
candidates.py lines 1330–1338 and assessments.py lines 178–184. -/
def personalityScore (t : PersonalityTraits) : ℚ :=
  (t.openness + t.conscientiousness + t.extraversion + t.agreeableness +
    (10 - t.neuroticism)) / 5

/-- Breakdown written on analysis completion (candidates.py lines
1314–1340): resume and overall scores are both the scorer's overall
score; CCAT percentile divided by 10 and the personality average are
added only when the corresponding assessment rows exist. -/
def mkAnalysisBreakdown (overall : ℚ) (ccatPercentile : Option ℚ)
    (traits : Option PersonalityTraits) : ScoreBreakdown :=
  { resume_score := some overall,
    overall_score := some overall,
    ccat_score := ccatPercentile.map (fun p => p / 10),
    personality_score := traits.map personalityScore }

/-- `if "resume_score" in existing_breakdown: overall_score :=
resume_score` — the guard shared by all three assessment-upload routes
(assessments.py lines 190–192, 256–257, 370–371, 440–441). -/
def setOverallFromResume (b : ScoreBreakdown) : ScoreBreakdown :=
  match b.resume_score with
  | some r => { b with overall_score := some r }
  | none => b

/-- Breakdown update of the per-candidate combined assessment upload
(assessments.py lines 166–197): start from the candidate's existing
breakdown (`{}` when null), overwrite `ccat_score` / `personality_score`
for whichever results were uploaded, then re-derive `overall_score` from
`resume_score` when present. -/
def mergeAssessmentUpload (prior : Option ScoreBreakdown) (ccatPercentile : Option ℚ)
    (traits : Option PersonalityTraits) : ScoreBreakdown :=
  let b0 := prior.getD emptyBreakdown
  let b1 :=
    match ccatPercentile with
    | some p => { b0 with ccat_score := some (p / 10) }
    | none => b0
  let b2 :=
    match traits with
    | some t => { b1 with personality_score := some (personalityScore t) }
    | none => b1
  setOverallFromResume b2

/-- Breakdown update of the job-level CCAT CSV upload (assessments.py
lines 249–262). -/
def mergeJobCcatUpload (prior : Option ScoreBreakdown) (percentile : ℚ) : ScoreBreakdown :=
  setOverallFromResume { prior.getD emptyBreakdown with ccat_score := some (percentile / 10) }

/-- Breakdown update of the job-level personality upload (assessments.py
lines 356–371 and 426–441). -/
def mergeJobPersonalityUpload (prior : Option ScoreBreakdown)
    (t : PersonalityTraits) : ScoreBreakdown :=
  setOverallFromResume
    { prior.getD emptyBreakdown with personality_score := some (personalityScore t) }

/-- The overall-score product invariant: `overall_score` mirrors
`resume_score`, including definedness. -/
def overallInvariant (b : ScoreBreakdown) : Prop :=
  b.overall_score = b.resume_score

/-! ## Assessment result stores (assessments.py)

The `ccat_results` / `personality_results` Mongo collections are modelled
as lists in insertion order: `insert_one` appends,
`delete_many({"candidate_id": cid})` removes every row of that
candidate. -/

/-- A `ccat_results` row. -/
structure CCATRecord where
  candidate_id : String
  percentile : ℚ
  raw_score : Option ℚ
  deriving DecidableEq, Repr

/-- A `personality_results` row. -/
structure PersonalityRecord where
  candidate_id : String
  traits : PersonalityTraits
  deriving DecidableEq, Repr

/-- CCAT write of the per-candidate combined upload (assessments.py lines
77–88 and 126–140): `delete_many` on the candidate id, then
`insert_one`. -/
def uploadCandidateCcat (coll : List CCATRecord) (cid : String)
    (percentile : ℚ) (raw : Option ℚ) : List CCATRecord :=
  (coll.filter (fun r => r.candidate_id != cid)) ++
    [{ candidate_id := cid, percentile := percentile, raw_score := raw }]

/-- Personality write of the per-candidate combined upload
(assessments.py lines 90–109 and 143–161): `delete_many` then
`insert_one`. -/
def uploadCandidatePersonality (coll : List PersonalityRecord) (cid : String)
    (t : PersonalityTraits) : List PersonalityRecord :=
  (coll.filter (fun r => r.candidate_id != cid)) ++
    [{ candidate_id := cid, traits := t }]

/-- CCAT write of the job-level CSV upload (assessments.py lines
238–247): `insert_one` with no prior delete. -/
def uploadJobCcat (coll : List CCATRecord) (cid : String)
    (percentile : ℚ) (raw : Option ℚ) : List CCATRecord :=
  coll ++ [{ candidate_id := cid, percentile := percentile, raw_score := raw }]

/-- Personality write of the job-level upload (assessments.py lines
347–354 and 417–424): `insert_one` with no prior delete. -/
def uploadJobPersonality (coll : List PersonalityRecord) (cid : String)
    (t : PersonalityTraits) : List PersonalityRecord :=
  coll ++ [{ candidate_id := cid, traits := t }]

/-! ## Candidate analysis orchestrator (candidates.py,
process_candidate_analysis, lines 1164–1396)

The orchestrator reads the candidate and job documents, guards entry,
flips the status to `analyzing`, runs the scoring body, and either
persists the results or retries with exponential backoff by re-invoking
itself with `retry_count + 1` (sleeping `2 ** retry_count` seconds, a
real-time effect outside the embedding, as is the `analysis_started_at`
timestamp).

The scoring body can raise through the Gemini call or the empty-resume
check; each attempt's outcome is supplied by `scorer : ℕ → Except String
ScoringResult` indexed by the attempt counter.  The candidate document is
re-read from the store at each recursive call; since the orchestrator is
the only writer in this flow, the re-read state is the state it just
wrote. -/

/-- The candidate fields `process_candidate_analysis` reads or writes. -/
structure CandidateDoc where
  status : CandidateStatus
  resume_text : String
  score_breakdown : Option ScoreBreakdown
  criterion_scores : Option (List CriterionScore)
  ai_justification : Option String
  analysis_error : Option String
  analysis_failed : Bool
  deriving DecidableEq, Repr

/-- Fixed collaborators of one analysis run. -/
structure AnalysisEnv where
  jobExists : Bool
  criteria : List Criterion
  scorer : ℕ → Except String ScoringResult
  ccatPercentile : Option ℚ
  personality : Option PersonalityTraits
  pyHash : String → ℤ

/-- `max_retries = 3` (candidates.py line 1167). -/
def maxRetries : ℕ := 3

/-- The `try` body up to and including the scorer call (candidates.py
lines 1193–1224): an empty `resume_text` raises before the scorer is
invoked. -/
def analysisTryBody (env : AnalysisEnv) (c : CandidateDoc) (attempt : ℕ) :
    Except String ScoringResult :=
  if c.resume_text = "" then .error "No resume text available"
  else env.scorer attempt

/-- `process_candidate_analysis`.  Returns the final candidate document,
the number of scoring attempts made, and the sequence of status values
written to the store (used to observe the `analyzing` transition). -/
def processCandidateAnalysis (env : AnalysisEnv) (retry_count : ℕ) (c : CandidateDoc) :
    CandidateDoc × ℕ × List CandidateStatus :=
  if (c.status ≠ .new ∧ c.status ≠ .analyzing) ∧ retry_count = 0 then
    (c, 0, [])
  else if env.jobExists = false then
    ({ c with status := .new }, 0, [.new])
  else
    let c1 := { c with status := .analyzing }
    match analysisTryBody env c1 retry_count with
    | .ok sr =>
        let cs := reconcileCriterionScores env.pyHash (some sr.overall_score)
          sr.criterion_scores env.criteria
        let bd := mkAnalysisBreakdown sr.overall_score env.ccatPercentile env.personality
        ({ c1 with
            status := .new,
            score_breakdown := some bd,
            criterion_scores := some cs,
            ai_justification := some sr.justification },
          1, [.analyzing, .new])
    | .error msg =>
        if h : retry_count < maxRetries then
          let c2 := { c1 with status := .new, analysis_error := some msg }
          let r := processCandidateAnalysis env (retry_count + 1) c2
          (r.1, r.2.1 + 1, .analyzing :: .new :: r.2.2)
        else
          ({ c1 with status := .new, analysis_error := some msg, analysis_failed := true },
            1, [.analyzing, .new])
termination_by maxRetries + 1 - retry_count
decreasing_by simp [maxRetries] at *; omega

/-! ## Entity extractor (utils/entity_extraction.py)

`extract_entities_with_llm` early-returns a sentinel for empty or
whitespace-only input, otherwise makes one Gemini call and parses the
response: a successful `json.loads` goes through field-level cleanup, a
`JSONDecodeError` falls back to per-field regex rescue on the model
output, and any other exception falls back to `_fallback_extraction`
over the resume text itself.  As with the scorer, the embedding starts
from the parse outcome; the rescue patterns `"<field>"\s*:\s*"([^"]+)"`
yield the captured groups carried by `parseFailed`.  Inside
`_fallback_extraction` the three `re` uses (email `findall`, phone
`findall`, location line `match`) are supplied by a
`FallbackRegexEnv`. -/

/-- The four-key dict every extraction path returns. -/
structure Entities where
  name : Option String
  email : Option String
  phone : Option String
  location : Option String
  deriving DecidableEq, Repr

/-- The sentinel returned for empty input (entity_extraction.py lines
27–33). -/
def unknownEntities : Entities :=
  { name := some "Unknown Candidate", email := none, phone := none, location := none }

/-- Python `x or default` on an optional string: `None` and `""` are
falsy. -/
def pyOrDefault (o : Option String) (d : String) : String :=
  match o with
  | none => d
  | some "" => d
  | some s => s

/-- The phone normalisation block shared by the strict and rescue paths
(entity_extraction.py lines 137–153 and 190–203): drop every character
but digits and `+`, require at least 7 characters, force a leading `+`,
then re-assemble through the `^\+(\d{1,4})(\d+)$` match when it
applies. -/
def normalizePhoneDigits (phone : String) : Option String :=
  let cleaned := String.mk (phone.toList.filter (fun ch => ch.isDigit || ch == '+'))
  if 7 ≤ cleaned.length then
    let c2 := if cleaned.startsWith "+" then cleaned else "+" ++ cleaned
    let rest := c2.drop 1
    if 2 ≤ rest.length ∧ rest.toList.all Char.isDigit then some ("+" ++ rest)
    else some c2
  else none

/-- Name cleanup on the strict path (entity_extraction.py lines
113–120): strip, drop null-ish literals, Title Case. -/
def cleanName (n : Option String) : Option String :=
  match n with
  | none => none
  | some s =>
    if s = "" then some s
    else
      let t := pyStrip s
      if t = "" ∨ t.toLower ∈ ["null", "none", "n/a", "unknown"] then none
      else some (pyTitleWords t)

/-- Email cleanup on the strict path (lines 122–127). -/
def cleanEmail (e : Option String) : Option String :=
  match e with
  | none => none
  | some s =>
    if s = "" then some s
    else
      let t := (pyStrip s).toLower
      if pyIn "@" t = false ∨ t ∈ ["null", "none", "n/a"] then none
      else some t

/-- Phone cleanup on the strict path (lines 129–153). -/
def cleanPhone (p : Option String) : Option String :=
  match p with
  | none => none
  | some s =>
    if s = "" then some s
    else
      let t := pyStrip s
      if t.toLower ∈ ["null", "none", "n/a"] then none
      else normalizePhoneDigits t

/-- Location cleanup on the strict path (lines 155–159). -/
def cleanLocation (l : Option String) : Option String :=
  match l with
  | none => none
  | some s =>
    if s = "" then some s
    else
      let t := pyStrip s
      if t = "" ∨ t.toLower ∈ ["null", "none", "n/a", "unknown"] then none
      else some t

/-- Outcome of the Gemini call plus parse stage of the entity
extractor. -/
inductive EntityLlmOutcome where
  | raised
  | parsed (name email phone location : Option String)
  | parseFailed (name email phone location : Option String)
  deriving DecidableEq, Repr

/-- Results of the `re` calls inside `_fallback_extraction`: the email
and phone `findall` hit lists and the location line `match`
predicate. -/
structure FallbackRegexEnv where
  emails : List String
  phones : List String
  locationLineMatch : String → Bool

/-- The candidate-for-name test of `_fallback_extraction` (lines
245–250), applied to an already-stripped line: nonempty, two to four
whitespace-separated words, and either purely alphabetic once spaces are
removed, or alphanumeric with total length under 50. -/
def nameLineOk (line : String) : Bool :=
  let squashed := String.mk (line.toList.filter (fun ch => ch ≠ ' '))
  decide (0 < line.length) &&
  decide (2 ≤ (pySplitWs line).length ∧ (pySplitWs line).length ≤ 4) &&
  ((decide (squashed ≠ "") && squashed.toList.all Char.isAlpha) ||
   (decide (squashed ≠ "") && squashed.toList.all Char.isAlphanum &&
     decide (line.length < 50)))

/-- `_fallback_extraction` (entity_extraction.py lines 222–270). -/
def fallbackExtraction (text : String) (env : FallbackRegexEnv) : Entities :=
  let email := env.emails.head?
  let phone :=
    match env.phones.head? with
    | none => none
    | some p0 =>
        let cleaned := String.mk (p0.toList.filter (fun ch => ch.isDigit || ch == '+'))
        if 7 ≤ cleaned.length then
          some (if cleaned.startsWith "+" then cleaned else "+" ++ cleaned)
        else none
  let lines := text.splitOn "\n"
  let name :=
    match ((lines.take 5).map pyStrip).find? nameLineOk with
    | some l => l
    | none => "Unknown Candidate"
  let location :=
    ((lines.take 20).map pyStrip).find? (fun t =>
      decide (¬ (t = "" ∨ t.length < 3)) &&
      decide (¬ (pyIn "@" t = true ∨ pyIn "http" t.toLower = true)) &&
      env.locationLineMatch t)
  { name := some name, email := email, phone := phone, location := location }

/-- The strict-parse return (entity_extraction.py lines 161–166). -/
def entitiesFromParsed (n e p l : Option String) : Entities :=
  { name := some (pyOrDefault (cleanName n) "Unknown Candidate"),
    email := cleanEmail e,
    phone := cleanPhone p,
    location := cleanLocation l }

/-- The regex-rescue return (entity_extraction.py lines 173–210): Title
Case the name and normalise the phone when truthy; email and location
pass through. -/
def entitiesFromRescue (n e p l : Option String) : Entities :=
  let n2 :=
    match n with
    | none => none
    | some "" => some ""
    | some s => some (pyTitleWords s)
  let p2 :=
    match p with
    | none => none
    | some "" => some ""
    | some s => normalizePhoneDigits s
  { name := some (pyOrDefault n2 "Unknown Candidate"),
    email := e,
    phone := p2,
    location := l }

/-- `extract_entities_with_llm`: the three-tier extraction, total by
construction (every Python path is wrapped in the outer
`except Exception`, modelled by the `raised` branch). -/
def extractEntitiesWithLlm (resume_text : String) (llm : EntityLlmOutcome)
    (env : FallbackRegexEnv) : Entities :=
  if resume_text = "" ∨ pyStrip resume_text = "" then unknownEntities
  else
    match llm with
    | .raised => fallbackExtraction resume_text env
    | .parsed n e p l => entitiesFromParsed n e p l
    | .parseFailed n e p l => entitiesFromRescue n e p l

/-! ## Arithmetic lemmas about rounding and clamping -/

theorem roundHalfEven_eq_floor_or_add_one (q : ℚ) :
    roundHalfEven q = ⌊q⌋ ∨ roundHalfEven q = ⌊q⌋ + 1 := by
  unfold roundHalfEven
  split
  · exact Or.inl rfl
  split
  · exact Or.inr rfl
  split
  · exact Or.inl rfl
  · exact Or.inr rfl

theorem le_roundHalfEven {n : ℤ} {q : ℚ} (h : (n : ℚ) ≤ q) : n ≤ roundHalfEven q := by
  have h1 : n ≤ ⌊q⌋ := Int.le_floor.mpr h
  rcases roundHalfEven_eq_floor_or_add_one q with h2 | h2 <;> omega

theorem roundHalfEven_le {n : ℤ} {q : ℚ} (h : q ≤ (n : ℚ)) : roundHalfEven q ≤ n := by
  have hfl : ⌊q⌋ ≤ n := by
    have h1 : ⌊q⌋ ≤ ⌊(n : ℚ)⌋ := Int.floor_le_floor h
    simpa using h1
  rcases lt_or_eq_of_le hfl with hlt | heq
  · rcases roundHalfEven_eq_floor_or_add_one q with h2 | h2 <;> omega
  · have h3 : q ≤ ((⌊q⌋ : ℤ) : ℚ) := by rw [heq]; exact h
    have hq : q - ((⌊q⌋ : ℤ) : ℚ) < 1/2 := by linarith
    unfold roundHalfEven
    rw [if_pos hq]
    omega

theorem roundHalfEven_intCast (n : ℤ) : roundHalfEven ((n : ℤ) : ℚ) = n := by
  unfold roundHalfEven
  rw [Int.floor_intCast]
  norm_num

theorem clamp10_nonneg (q : ℚ) : 0 ≤ clamp10 q := le_max_left 0 _

theorem clamp10_le_ten (q : ℚ) : clamp10 q ≤ 10 :=
  max_le (by norm_num) (min_le_left 10 q)

theorem round1_nonneg {q : ℚ} (h : 0 ≤ q) : 0 ≤ round1 q := by
  have h1 : (0 : ℤ) ≤ roundHalfEven (10 * q) := le_roundHalfEven (by push_cast; linarith)
  have h2 : (0 : ℚ) ≤ (roundHalfEven (10 * q) : ℚ) := by exact_mod_cast h1
  unfold round1
  linarith

theorem round1_le_ten {q : ℚ} (h : q ≤ 10) : round1 q ≤ 10 := by
  have h1 : roundHalfEven (10 * q) ≤ (100 : ℤ) := roundHalfEven_le (by push_cast; linarith)
  have h2 : (roundHalfEven (10 * q) : ℚ) ≤ 100 := by exact_mod_cast h1
  unfold round1
  linarith

theorem round1_zero : round1 0 = 0 := by
  have h : (10 : ℚ) * 0 = ((0 : ℤ) : ℚ) := by norm_num
  unfold round1
  rw [h, roundHalfEven_intCast]
  norm_num

theorem round1_ten : round1 10 = 10 := by
  have h : (10 : ℚ) * 10 = ((100 : ℤ) : ℚ) := by norm_num
  unfold round1
  rw [h, roundHalfEven_intCast]
  norm_num

/-- Clamping to [0, 10] commutes with rounding to one decimal, because 0
and 10 are exactly representable at one decimal.  This identifies the
code's `max(0, min(10, round(x, 1)))` with the spec's clamp-then-round
reading. -/
theorem clamp10_round1_comm (x : ℚ) : clamp10 (round1 x) = round1 (clamp10 x) := by
  rcases le_or_lt x 0 with h0 | h0
  · have h1 : roundHalfEven (10 * x) ≤ (0 : ℤ) := roundHalfEven_le (by push_cast; linarith)
    have h2 : (roundHalfEven (10 * x) : ℚ) ≤ 0 := by exact_mod_cast h1
    have hr : round1 x ≤ 0 := by unfold round1; linarith
    have hcl : clamp10 x = 0 := by
      unfold clamp10
      rw [min_eq_right (by linarith), max_eq_left (by linarith)]
    rw [hcl, round1_zero]
    unfold clamp10
    rw [min_eq_right (by linarith), max_eq_left hr]
  rcases le_or_lt x 10 with h10 | h10
  · have hl : 0 ≤ round1 x := round1_nonneg h0.le
    have hu : round1 x ≤ 10 := round1_le_ten h10
    have hcl : clamp10 x = x := by
      unfold clamp10
      rw [min_eq_right h10, max_eq_right h0.le]
    rw [hcl]
    unfold clamp10
    rw [min_eq_right hu, max_eq_right hl]
  · have h1 : (100 : ℤ) ≤ roundHalfEven (10 * x) := le_roundHalfEven (by push_cast; linarith)
    have h2 : (100 : ℚ) ≤ (roundHalfEven (10 * x) : ℚ) := by exact_mod_cast h1
    have hr : (10 : ℚ) ≤ round1 x := by unfold round1; linarith
    have hcl : clamp10 x = 10 := by
      unfold clamp10
      rw [min_eq_left h10.le, max_eq_right (by norm_num)]
    rw [hcl, round1_ten]
    unfold clamp10
    rw [min_eq_left hr, max_eq_right (by norm_num)]

theorem emod100_nonneg (z : ℤ) : 0 ≤ z.emod 100 := Int.emod_nonneg z (by norm_num)

theorem emod100_lt (z : ℤ) : z.emod 100 < 100 := Int.emod_lt_of_pos z (by norm_num)

theorem setOverallFromResume_invariant (b : ScoreBreakdown)
    (h : b.resume_score = none → b.overall_score = none) :
    overallInvariant (setOverallFromResume b) := by
  unfold setOverallFromResume overallInvariant
  rcases hres : b.resume_score with _ | r
  · simp [hres, h hres]
  · simp [hres]

/-! ## Claim theorems -/

/-- C1: every `ScoreBreakdown` written by the analysis-completion write,
the per-candidate assessment upload, the job-level CCAT upload or the
job-level personality upload has `overall_score = resume_score` exactly
(including definedness: `overall_score` defined iff `resume_score` is),
regardless of `ccat_score` / `personality_score`.  The merge routes read
the candidate's stored breakdown; the hypothesis that the stored
breakdown (when present) already satisfies the invariant is maintained,
since an absent breakdown trivially satisfies it and every write site is
one of these four operations. -/
theorem overall_score_invariant :
    (∀ overall ccat traits, overallInvariant (mkAnalysisBreakdown overall ccat traits)) ∧
    (∀ prior, (∀ b ∈ prior, overallInvariant b) →
      ∀ ccat traits, overallInvariant (mergeAssessmentUpload prior ccat traits)) ∧
    (∀ prior, (∀ b ∈ prior, overallInvariant b) →
      ∀ p, overallInvariant (mergeJobCcatUpload prior p)) ∧
    (∀ prior, (∀ b ∈ prior, overallInvariant b) →
      ∀ t, overallInvariant (mergeJobPersonalityUpload prior t)) := by
  have hprior : ∀ prior : Option ScoreBreakdown, (∀ b ∈ prior, overallInvariant b) →
      (prior.getD emptyBreakdown).overall_score = (prior.getD emptyBreakdown).resume_score := by
    intro prior hInv
    cases prior with
    | none => simp [emptyBreakdown]
    | some b => exact hInv b rfl
  refine ⟨?_, ?_, ?_, ?_⟩
  · intro overall ccat traits
    simp [overallInvariant, mkAnalysisBreakdown]
  · intro prior hInv ccat traits
    unfold mergeAssessmentUpload
    apply setOverallFromResume_invariant
    have h := hprior prior hInv
    cases ccat <;> cases traits <;> intro hres <;> simp_all
  · intro prior hInv p
    unfold mergeJobCcatUpload
    apply setOverallFromResume_invariant
    have h := hprior prior hInv
    intro hres
    simp_all
  · intro prior hInv t
    unfold mergeJobPersonalityUpload
    apply setOverallFromResume_invariant
    have h := hprior prior hInv
    intro hres
    simp_all

/-- Witness for C1: a concrete CCAT upload over a breakdown produced by a
concrete analysis completion. -/
theorem overall_score_invariant_witness :
    overallInvariant
      (mergeAssessmentUpload
        (some (mkAnalysisBreakdown 8 none none)) (some 85) none) :=
  overall_score_invariant.2.1 (some (mkAnalysisBreakdown 8 none none))
    (by intro b hb
        cases hb
        exact overall_score_invariant.1 8 none none)
    (some 85) none

/-- C2: for every job criteria list and every scorer output, the
reconciler produces exactly one `CriterionScore` per job criterion, in
job-declared order, with equal length and the multiset (indeed the
sequence) of `criterion_name` values equal to the job's declared
names. -/
theorem reconciler_completeness (pyHash : String → ℤ) (overallOpt : Option ℚ)
    (llmScores : List (String × ℚ)) (criteria : List Criterion) :
    (reconcileCriterionScores pyHash overallOpt llmScores criteria).length = criteria.length ∧
    (reconcileCriterionScores pyHash overallOpt llmScores criteria).map
        CriterionScore.criterion_name = criteria.map Criterion.name ∧
    (((reconcileCriterionScores pyHash overallOpt llmScores criteria).map
        CriterionScore.criterion_name : List String) : Multiset String)
      = ((criteria.map Criterion.name : List String) : Multiset String) := by
  have hmap : (reconcileCriterionScores pyHash overallOpt llmScores criteria).map
      CriterionScore.criterion_name = criteria.map Criterion.name := by
    simp [reconcileCriterionScores, List.map_map]
  refine ⟨?_, hmap, ?_⟩
  · simp [reconcileCriterionScores]
  · rw [hmap]

/-- C5: the synthesised score for an unmatched criterion equals
`clamp(base + variation * (1 - weight/100), 0, 10)` rounded to one
decimal, with `base = overall_score` (7.0 when undefined) and
`variation = ((hash(name) mod 100)/100 - 1/2) * 2`; the variation lies in
[-1, 1], and the synthesis is deterministic in the criterion name, base
score and weight. -/
theorem synthesized_score_formula (pyHash : String → ℤ) (overallOpt : Option ℚ)
    (c : Criterion) :
    synthesizeScore pyHash overallOpt c
      = round1 (clamp10 (overallOpt.getD 7 +
          ((((pyHash c.name).emod 100 : ℤ) : ℚ) / 100 - 1/2) * 2 * (1 - c.weight / 100))) ∧
    (-1 ≤ ((((pyHash c.name).emod 100 : ℤ) : ℚ) / 100 - 1/2) * 2 ∧
      ((((pyHash c.name).emod 100 : ℤ) : ℚ) / 100 - 1/2) * 2 ≤ 1) ∧
    (∀ c₂ : Criterion, c₂.name = c.name → c₂.weight = c.weight →
      synthesizeScore pyHash overallOpt c₂ = synthesizeScore pyHash overallOpt c) := by
  have hlo : (0 : ℚ) ≤ (((pyHash c.name).emod 100 : ℤ) : ℚ) := by
    exact_mod_cast emod100_nonneg (pyHash c.name)
  have hhi : (((pyHash c.name).emod 100 : ℤ) : ℚ) ≤ 99 := by
    have h := emod100_lt (pyHash c.name)
    have h2 : (pyHash c.name).emod 100 ≤ 99 := by omega
    exact_mod_cast h2
  refine ⟨?_, ⟨by linarith, by linarith⟩, ?_⟩
  · unfold synthesizeScore
    exact clamp10_round1_comm _
  · intro c₂ h1 h2
    unfold synthesizeScore
    rw [h1, h2]

/-- Witness for C5: the formula and determinism at a concrete hash,
overall score and criterion. -/
theorem synthesized_score_formula_witness :
    (synthesizeScore (fun _ => (42 : ℤ)) (some 8) { name := "Communication", weight := 60 }
      = round1 (clamp10 ((Option.getD (some 8) 7 : ℚ) +
          (((((fun _ => (42 : ℤ)) "Communication").emod 100 : ℤ) : ℚ) / 100 - 1/2) * 2 *
            (1 - (60 : ℚ) / 100)))) ∧
    synthesizeScore (fun _ => (42 : ℤ)) (some 8) { name := "Communication", weight := 60 }
      = synthesizeScore (fun _ => (42 : ℤ)) (some 8) { name := "Communication", weight := 60 } :=
  ⟨(synthesized_score_formula (fun _ => (42 : ℤ)) (some 8)
      { name := "Communication", weight := 60 }).1,
   (synthesized_score_formula (fun _ => (42 : ℤ)) (some 8)
      { name := "Communication", weight := 60 }).2.2
      { name := "Communication", weight := 60 } rfl rfl⟩

/-- C3: with a scoring body that fails on every attempt, a run started at
`retry_count = 0` on a `new` candidate with nonempty resume text makes
exactly 4 attempts (the initial one plus 3 retries, recursing with an
incremented counter), and terminates by persisting `status = new`,
`analysis_error` set to the error message and `analysis_failed = true`,
without raising.  The `2 ** retry_count` backoff sleep between attempts
is a real-time effect outside the embedding. -/
theorem retry_policy_exhaustion (env : AnalysisEnv) (c : CandidateDoc) (msg : String)
    (hstatus : c.status = .new) (hjob : env.jobExists = true)
    (htext : c.resume_text ≠ "") (hfail : ∀ n, env.scorer n = .error msg) :
    processCandidateAnalysis env 0 c
      = ({ c with status := .new, analysis_error := some msg, analysis_failed := true }, 4,
          [.analyzing, .new, .analyzing, .new, .analyzing, .new, .analyzing, .new]) := by
  simp [processCandidateAnalysis, analysisTryBody, maxRetries, hstatus, hjob, htext, hfail]

/-- Witness for C3: a concrete always-failing run. -/
theorem retry_policy_exhaustion_witness :
    processCandidateAnalysis
        { jobExists := true, criteria := [], scorer := fun _ => .error "boom",
          ccatPercentile := none, personality := none, pyHash := fun _ => 0 } 0
        { status := .new, resume_text := "resume", score_breakdown := none,
          criterion_scores := none, ai_justification := none, analysis_error := none,
          analysis_failed := false }
      = ({ status := .new, resume_text := "resume", score_breakdown := none,
           criterion_scores := none, ai_justification := none, analysis_error := some "boom",
           analysis_failed := true }, 4,
          [.analyzing, .new, .analyzing, .new, .analyzing, .new, .analyzing, .new]) :=
  retry_policy_exhaustion _ _ "boom" rfl rfl (by decide) (fun _ => rfl)

/-- C4: the orchestrator never writes status `analyzing` unless the
candidate's current status is `new` or `analyzing` or the call carries a
nonzero retry counter (the code's notion of a forced retry); in all other
cases the run returns immediately with no attempts, no status writes and
the candidate document unchanged. -/
theorem analysis_transition_guard (env : AnalysisEnv) (rc : ℕ) (c : CandidateDoc) :
    ((c.status ≠ .new ∧ c.status ≠ .analyzing) ∧ rc = 0 →
        processCandidateAnalysis env rc c = (c, 0, [])) ∧
    (CandidateStatus.analyzing ∈ (processCandidateAnalysis env rc c).2.2 →
        c.status = .new ∨ c.status = .analyzing ∨ rc ≠ 0) := by
  constructor
  · intro h
    rw [processCandidateAnalysis, if_pos h]
  · intro hmem
    by_contra hno
    push_neg at hno
    obtain ⟨h1, h2, h3⟩ := hno
    rw [processCandidateAnalysis, if_pos ⟨⟨h1, h2⟩, h3⟩] at hmem
    simp at hmem

theorem fallback_scores_bounds (pyHash : String → ℤ) (llmScore : ℚ)
    (criteria : List Criterion) :
    ∀ p ∈ fallbackCriterionScores pyHash llmScore criteria, 0 ≤ p.2 ∧ p.2 ≤ 10 := by
  intro p hp
  unfold fallbackCriterionScores at hp
  simp only [List.mem_map] at hp
  obtain ⟨c, _, hpc⟩ := hp
  rw [← hpc]
  exact ⟨round1_nonneg (clamp10_nonneg _), round1_le_ten (clamp10_le_ten _)⟩

theorem validated_scores_bounds (cs : Option (List RawCS)) :
    ∀ p ∈ validateCriterionScores cs, 0 ≤ p.2 ∧ p.2 ≤ 10 := by
  intro p hp
  unfold validateCriterionScores at hp
  cases cs with
  | none => simp at hp
  | some l =>
    simp only [List.mem_filterMap] at hp
    obtain ⟨r, _, hr⟩ := hp
    cases r with
    | malformed => simp at hr
    | good n s =>
      simp only [Option.some.injEq] at hr
      rw [← hr]
      exact ⟨clamp10_nonneg s, clamp10_le_ten s⟩

/-- C6 counterexample: on the regex-rescue parse path, criterion scores
are returned without clamping.  A response that fails `json.loads` (for
example through a trailing comma) while matching the criterion-tuple
regex with score literal `15.0` produces a returned criterion score of
15, outside [0, 10]. -/
theorem scorer_clamp_counterexample :
    (scoreResumeResult (fun _ => 0) []
        (.parseFailed none [("X", 15)] none)).criterion_scores = [("X", 15)] ∧
      ¬ ((15 : ℚ) ≤ 10) := by
  constructor
  · rfl
  · norm_num

/-- C6 (amended): the returned `overall_score` lies in [0, 10] on every
path, and every criterion score is clamped to [0, 10] on the strict JSON
parse path (including scorer-generated fallback scores); on the
regex-rescue path criterion scores are only nonnegative (the rescue
pattern matches unsigned decimal literals) and are not clamped above. -/
theorem scorer_scores_clamped (pyHash : String → ℤ) (criteria : List Criterion)
    (out : LlmScoringOutcome) :
    (0 ≤ (scoreResumeResult pyHash criteria out).overall_score ∧
      (scoreResumeResult pyHash criteria out).overall_score ≤ 10) ∧
    (∀ overall cs just, out = .parsed overall cs just →
      ∀ p ∈ (scoreResumeResult pyHash criteria out).criterion_scores,
        0 ≤ p.2 ∧ p.2 ≤ 10) ∧
    (∀ o l j, out = .parseFailed o l j → (∀ p ∈ l, 0 ≤ p.2) →
      ∀ p ∈ (scoreResumeResult pyHash criteria out).criterion_scores, 0 ≤ p.2) ∧
    (∀ msg, out = .apiError msg →
      (scoreResumeResult pyHash criteria out).criterion_scores = []) := by
  refine ⟨?_, ?_, ?_, ?_⟩
  · cases out with
    | apiError msg =>
        constructor
        · exact le_refl _
        · norm_num [scoreResumeResult]
    | parsed o cs j => exact ⟨clamp10_nonneg _, clamp10_le_ten _⟩
    | parseFailed o l j => exact ⟨clamp10_nonneg _, clamp10_le_ten _⟩
  · intro overall cs just hout p hp
    subst hout
    simp only [scoreResumeResult] at hp
    split at hp
    · exact fallback_scores_bounds _ _ _ p hp
    · exact validated_scores_bounds cs p hp
  · intro o l j hout hnn p hp
    subst hout
    simp only [scoreResumeResult] at hp
    split at hp
    · exact (fallback_scores_bounds _ _ _ p hp).1
    · exact hnn p hp
  · intro msg hout
    subst hout
    rfl

/-- Witness for C6 (amended): a provider error yields the empty
criterion list. -/
theorem scorer_scores_clamped_witness :
    (scoreResumeResult (fun _ => 0) [] (.apiError "boom")).criterion_scores = [] :=
  (scorer_scores_clamped (fun _ => 0) [] (.apiError "boom")).2.2.2 "boom" rfl

/-- C7: any exception from the provider call is swallowed: the scorer
returns `overall_score = 0` with an empty criterion list, and the auth /
rate-limit / timeout error classes map to three pairwise distinct
human-readable justification strings, chosen by the code's marker tests
in that order. -/
theorem scorer_error_fallback (pyHash : String → ℤ) (criteria : List Criterion)
    (msg : String) :
    (scoreResumeResult pyHash criteria (.apiError msg)
      = { overall_score := 0, criterion_scores := [],
          justification := errorJustification msg }) ∧
    (authJust ≠ rateJust ∧ authJust ≠ timeoutJust ∧ rateJust ≠ timeoutJust) ∧
    ((pyIn "API key" msg || pyIn "authentication" msg.toLower) = true →
      errorJustification msg = authJust) ∧
    ((pyIn "API key" msg || pyIn "authentication" msg.toLower) = false →
      (pyIn "rate limit" msg.toLower || pyIn "quota" msg.toLower) = true →
      errorJustification msg = rateJust) ∧
    ((pyIn "API key" msg || pyIn "authentication" msg.toLower) = false →
      (pyIn "rate limit" msg.toLower || pyIn "quota" msg.toLower) = false →
      pyIn "timeout" msg.toLower = true →
      errorJustification msg = timeoutJust) := by
  refine ⟨rfl, ⟨by decide, by decide, by decide⟩, ?_, ?_, ?_⟩
  · intro h1
    simp [errorJustification, h1]
  · intro h1 h2
    simp [errorJustification, h1, h2]
  · intro h1 h2 h3
    simp [errorJustification, h1, h2, h3]

/-- Witness for C7: a concrete auth-failure message maps to the auth
string. -/
theorem scorer_error_fallback_witness :
    errorJustification "Invalid API key supplied" = authJust :=
  (scorer_error_fallback (fun _ => 0) [] "Invalid API key supplied").2.2.1 (by decide)

/-- C10: when the parse produced no criterion scores (absent or empty
list), the scorer generates one fallback score per evaluation criterion:
`round(clamp(llm_score + ((hash(name) mod 100)/100 - 1/2) * 1.5, 0, 10),
1)` with `llm_score` the clamped overall score, so the caller receives a
full-length list; the variation lies in [-0.75, 0.75], narrower than the
reconciler's [-1, 1] synthesis. -/
theorem scorer_fallback_generation (pyHash : String → ℤ) (criteria : List Criterion)
    (overall : Option ℚ) (just : Option String) :
    ((scoreResumeResult pyHash criteria (.parsed overall none just)).criterion_scores
      = criteria.map (fun c =>
          (c.name, round1 (clamp10 (clamp10 (overall.getD 7) +
            ((((pyHash c.name).emod 100 : ℤ) : ℚ) / 100 - 1/2) * (3/2)))))) ∧
    ((scoreResumeResult pyHash criteria (.parsed overall (some []) just)).criterion_scores
      = criteria.map (fun c =>
          (c.name, round1 (clamp10 (clamp10 (overall.getD 7) +
            ((((pyHash c.name).emod 100 : ℤ) : ℚ) / 100 - 1/2) * (3/2)))))) ∧
    ((scoreResumeResult pyHash criteria (.parsed overall none just)).criterion_scores.length
      = criteria.length) ∧
    (∀ name : String, -(3/4 : ℚ) ≤ ((((pyHash name).emod 100 : ℤ) : ℚ) / 100 - 1/2) * (3/2) ∧
      ((((pyHash name).emod 100 : ℤ) : ℚ) / 100 - 1/2) * (3/2) ≤ 3/4) := by
  have h1 : (scoreResumeResult pyHash criteria (.parsed overall none just)).criterion_scores
      = criteria.map (fun c =>
          (c.name, round1 (clamp10 (clamp10 (overall.getD 7) +
            ((((pyHash c.name).emod 100 : ℤ) : ℚ) / 100 - 1/2) * (3/2))))) := rfl
  refine ⟨h1, rfl, by rw [h1, List.length_map], ?_⟩
  intro name
  have hlo : (0 : ℚ) ≤ (((pyHash name).emod 100 : ℤ) : ℚ) := by
    exact_mod_cast emod100_nonneg (pyHash name)
  have hhi : (((pyHash name).emod 100 : ℤ) : ℚ) ≤ 99 := by
    have h := emod100_lt (pyHash name)
    have h2 : (pyHash name).emod 100 ≤ 99 := by omega
    exact_mod_cast h2
  constructor <;> linarith

/-- C8: the entity extractor, total on every tier, always reports a
defined name, and returns exactly the sentinel record on empty or
whitespace-only input. -/
theorem entity_extractor_total (resume_text : String) (llm : EntityLlmOutcome)
    (env : FallbackRegexEnv) :
    (extractEntitiesWithLlm resume_text llm env).name.isSome = true ∧
    (pyStrip resume_text = "" →
      extractEntitiesWithLlm resume_text llm env
        = { name := some "Unknown Candidate", email := none, phone := none,
            location := none }) := by
  constructor
  · unfold extractEntitiesWithLlm
    split
    · rfl
    · cases llm with
      | raised => rfl
      | parsed n e p l => rfl
      | parseFailed n e p l => rfl
  · intro h
    unfold extractEntitiesWithLlm
    rw [if_pos (Or.inr h)]
    rfl

/-- Witness for C8: whitespace-only input returns the sentinel. -/
theorem entity_extractor_total_witness :
    extractEntitiesWithLlm "   " EntityLlmOutcome.raised
        { emails := [], phones := [], locationLineMatch := fun _ => false }
      = { name := some "Unknown Candidate", email := none, phone := none,
          location := none } :=
  (entity_extractor_total "   " EntityLlmOutcome.raised
    { emails := [], phones := [], locationLineMatch := fun _ => false }).2 (by decide)

theorem filter_not_then_filter {α : Type _} (p : α → Bool) (l : List α) :
    (l.filter (fun a => !(p a))).filter p = [] := by
  induction l with
  | nil => rfl
  | cons a as ih =>
    by_cases h : p a
    · simp [List.filter_cons, h, ih]
    · simp [List.filter_cons, h, ih]

theorem ccat_filter_ne_eq (l : List CCATRecord) (cid : String) :
    (l.filter (fun r => r.candidate_id != cid)).filter
      (fun r => r.candidate_id == cid) = [] :=
  filter_not_then_filter (fun r => r.candidate_id == cid) l

theorem personality_filter_ne_eq (l : List PersonalityRecord) (cid : String) :
    (l.filter (fun r => r.candidate_id != cid)).filter
      (fun r => r.candidate_id == cid) = [] :=
  filter_not_then_filter (fun r => r.candidate_id == cid) l

/-- C9 counterexample: the job-level CCAT upload route inserts without a
prior delete; uploading percentile 50 then percentile 90 for the same
candidate through it leaves two CCAT records for that candidate, so the
claimed delete-then-insert semantics does not hold for every upload
route that stores assessment results. -/
theorem ccat_job_upload_retains_counterexample :
    (uploadJobCcat (uploadJobCcat [] "cand1" 50 none) "cand1" 90 none).filter
        (fun r => r.candidate_id == "cand1")
      = [{ candidate_id := "cand1", percentile := 50, raw_score := none },
         { candidate_id := "cand1", percentile := 90, raw_score := none }] ∧
    ((uploadJobCcat (uploadJobCcat [] "cand1" 50 none) "cand1" 90 none).filter
        (fun r => r.candidate_id == "cand1")).length ≠ 1 := by
  constructor
  · rfl
  · decide

/-- C9 (amended): the per-candidate combined assessment upload fully
replaces (delete-then-insert) any prior CCAT or personality result —
after uploading CCAT percentile 50 then 90 exactly one CCAT record
remains, carrying the latest values — while the job-level CCAT and
personality upload routes insert without deleting prior results. -/
theorem assessment_upload_replacement (coll : List CCATRecord)
    (pcoll : List PersonalityRecord) (cid : String) (p₁ p₂ : ℚ) (r₁ r₂ : Option ℚ)
    (t₁ t₂ : PersonalityTraits) :
    ((uploadCandidateCcat (uploadCandidateCcat coll cid p₁ r₁) cid p₂ r₂).filter
        (fun r => r.candidate_id == cid)
      = [{ candidate_id := cid, percentile := p₂, raw_score := r₂ }]) ∧
    ((uploadCandidatePersonality (uploadCandidatePersonality pcoll cid t₁) cid t₂).filter
        (fun r => r.candidate_id == cid)
      = [{ candidate_id := cid, traits := t₂ }]) ∧
    (uploadJobCcat coll cid p₁ r₁
      = coll ++ [{ candidate_id := cid, percentile := p₁, raw_score := r₁ }]) ∧
    (uploadJobPersonality pcoll cid t₁
      = pcoll ++ [{ candidate_id := cid, traits := t₁ }]) := by
  refine ⟨?_, ?_, rfl, rfl⟩
  · unfold uploadCandidateCcat
    rw [List.filter_append, ccat_filter_ne_eq]
    simp
  · unfold uploadCandidatePersonality
    rw [List.filter_append, personality_filter_ne_eq]
    simp

/-- Witness for C4: a `shortlisted` candidate at `retry_count = 0` is
left untouched. -/
theorem analysis_transition_guard_witness :
    processCandidateAnalysis
        { jobExists := true, criteria := [], scorer := fun _ => .error "llm down",
          ccatPercentile := none, personality := none, pyHash := fun _ => 0 } 0
        { status := .shortlisted, resume_text := "text", score_breakdown := none,
          criterion_scores := none, ai_justification := none, analysis_error := none,
          analysis_failed := false }
      = ({ status := .shortlisted, resume_text := "text", score_breakdown := none,
           criterion_scores := none, ai_justification := none, analysis_error := none,
           analysis_failed := false }, 0, []) :=
  (analysis_transition_guard _ 0 _).1 ⟨⟨by decide, by decide⟩, rfl⟩

end Greenstone
